import Mathlib

/-
  Verification development for the beeswax Hive-DDL schema-migration tool.
  The Python sources under src/ are shallowly embedded: pyparsing result
  values become the inductive PyVal, each model class becomes a structure,
  and every fallible Python operation returns Except PyErr.  Python runtime
  errors that the code can actually raise (TypeError, AttributeError,
  IndexError raised outside a catching try, pyparsing ParseException,
  UnsafeOperationException) are the PyErr constructors.
-/

namespace Beeswax

/-- Python values occurring in pyparsing `asList()` results: strings,
numbers (only skew values can be numeric), and nested lists. -/
inductive PyVal where
  | str (s : String)
  | intv (n : Int)
  | lst (xs : List PyVal)

mutual

/-- Structural decidable equality for PyVal (the nested list rules out the
derived instance). -/
def PyVal.decEq : (a b : PyVal) → Decidable (a = b)
  | .str a, .str b =>
      if h : a = b then .isTrue (by rw [h]) else .isFalse (by simp [h])
  | .intv a, .intv b =>
      if h : a = b then .isTrue (by rw [h]) else .isFalse (by simp [h])
  | .lst a, .lst b =>
      match PyVal.decEqList a b with
      | .isTrue h => .isTrue (by rw [h])
      | .isFalse h => .isFalse (by simpa using h)
  | .str _, .intv _ => .isFalse (by simp)
  | .str _, .lst _ => .isFalse (by simp)
  | .intv _, .str _ => .isFalse (by simp)
  | .intv _, .lst _ => .isFalse (by simp)
  | .lst _, .str _ => .isFalse (by simp)
  | .lst _, .intv _ => .isFalse (by simp)

/-- Structural decidable equality for lists of PyVal. -/
def PyVal.decEqList : (a b : List PyVal) → Decidable (a = b)
  | [], [] => .isTrue rfl
  | [], _ :: _ => .isFalse (by simp)
  | _ :: _, [] => .isFalse (by simp)
  | a :: as, b :: bs =>
      match PyVal.decEq a b with
      | .isFalse h => .isFalse (by simp [h])
      | .isTrue h =>
        match PyVal.decEqList as bs with
        | .isTrue h2 => .isTrue (by rw [h, h2])
        | .isFalse h2 => .isFalse (by simp [h2])

end

instance : DecidableEq PyVal := PyVal.decEq

mutual

/-- Computable size of a PyVal, used only to supply fuel to the type
renderer below. -/
def pySize : PyVal → Nat
  | .str _ => 1
  | .intv _ => 1
  | .lst xs => 1 + pySizeList xs

/-- Computable size of a list of PyVal. -/
def pySizeList : List PyVal → Nat
  | [] => 1
  | x :: xs => 1 + pySize x + pySizeList xs

end

/-- Python `repr` for a quoted string.  Quote selection follows CPython:
double quotes when the text holds a single quote but no double quote,
otherwise single quotes (escaping any single quote).  Control characters
and backslashes are not escaped; no value in this development holds any. -/
def pyQuote (s : String) : String :=
  if s.contains ('\x27') && !(s.contains ('"')) then "\"" ++ s ++ "\""
  else "\x27" ++ s.replace ("\x27") ("\\\x27") ++ "\x27"

mutual

/-- Python `repr` of a PyVal (used by `str` on lists). -/
def pyRepr : PyVal → String
  | .str s => pyQuote s
  | .intv n => toString n
  | .lst xs => "[" ++ pyReprList xs ++ "]"

/-- Comma-joined `repr` of the elements of a Python list. -/
def pyReprList : List PyVal → String
  | [] => ""
  | [x] => pyRepr x
  | x :: y :: xs => pyRepr x ++ ", " ++ pyReprList (y :: xs)

end

/-- Python `str`/f-string conversion of a PyVal. -/
def pyStr : PyVal → String
  | .str s => s
  | .intv n => toString n
  | .lst xs => "[" ++ pyReprList xs ++ "]"

/-- Python runtime errors reachable in this code base.  `outOfFuel` is an
artifact of the fueled embedding of the mutually recursive type renderer
and is never produced for the fuel bounds used by the wrappers below. -/
inductive PyErr where
  | parseException
  | unsafeOperation
  | typeError
  | attributeError
  | indexError
  | outOfFuel
deriving DecidableEq

/-- Decidable equality on Except results, so concrete runs of the embedded
code can be checked by `decide`. -/
instance instDecEqExcept [DecidableEq ε] [DecidableEq α] : DecidableEq (Except ε α)
  | .ok a, .ok b =>
      if h : a = b then .isTrue (by rw [h]) else .isFalse (by simp [h])
  | .error a, .error b =>
      if h : a = b then .isTrue (by rw [h]) else .isFalse (by simp [h])
  | .ok _, .error _ => .isFalse (by simp)
  | .error _, .ok _ => .isFalse (by simp)

namespace Definitions

/-- src/parser/definitions.py CHAR_TYPES. -/
def CHAR_TYPES : List String := ["CHAR", "VARCHAR"]

/-- src/parser/definitions.py DECIMAL_TYPES. -/
def DECIMAL_TYPES : List String := ["DECIMAL", "NUMERIC"]

end Definitions

/-- Python `token in <list of strings>`: false for non-string tokens. -/
def listContainsStr (l : List String) : PyVal → Bool
  | .str s => l.contains s
  | _ => false

/-- Python treats a string as a sequence of one-character strings; used when
a raw string is handed to a generator that indexes it. -/
def strSeq (s : String) : List PyVal :=
  s.data.map (fun c => PyVal.str (String.singleton c))

/-- Python `"\x27" in v or \x22"\x22 in v` check on a struct comment
candidate: substring test on strings, membership on lists, TypeError on
ints. -/
def pyContainsQuote : PyVal → Except PyErr Bool
  | .str s => .ok (s.contains ('\x27') || s.contains ('"'))
  | .lst xs => .ok (xs.contains (.str ("\x27")) || xs.contains (.str ("\"")))
  | .intv _ => .error .typeError

/-
  src/hql/hql_type.py.  The Python methods are mutually recursive through
  arbitrary nesting, so the embedding threads an explicit fuel argument;
  every public wrapper passes more fuel than any input of its size can
  consume.  Each function mirrors its Python source line by line; an
  IndexError caught by the source's `except` clause becomes
  `.error .parseException` directly, an uncaught AttributeError or
  TypeError becomes the matching PyErr.
-/

mutual

/-- HQLType.generate: dispatch on type_definition[0]; KeyError/IndexError
become ParseException, an unhashable (list) key raises TypeError, and a
string argument is indexed as a character sequence. -/
def genFuel : Nat → List PyVal → Except PyErr String
  | 0, _ => .error .outOfFuel
  | fuel + 1, td =>
    match td.get? 0 with
    | none => .error .parseException
    | some (.lst _) => .error .typeError
    | some (.intv _) => .error .parseException
    | some (.str tag) =>
      if tag = "ARRAY" ∨ tag = "MAP" ∨ tag = "STRUCT" ∨ tag = "UNION" then
        match td.get? 1 with
        | none => .error .parseException
        | some (.intv _) => .error .typeError
        | some (.lst xs) => genDispatch fuel tag xs
        | some (.str s) => genDispatch fuel tag (strSeq s)
      else .error .parseException

/-- Selects the generator function registered for the complex-type tag. -/
def genDispatch : Nat → String → List PyVal → Except PyErr String
  | 0, _, _ => .error .outOfFuel
  | fuel + 1, tag, xs =>
    if tag = "ARRAY" then genArray fuel xs
    else if tag = "MAP" then genMap fuel xs
    else if tag = "STRUCT" then genStruct fuel xs
    else genUnion fuel xs

/-- HQLType.generate_array. -/
def genArray : Nat → List PyVal → Except PyErr String
  | 0, _ => .error .outOfFuel
  | fuel + 1, array_def =>
    match array_def.get? 0 with
    | none => .error .parseException
    | some (.lst xs) => do
        let r ← genFuel fuel xs
        .ok ("ARRAY<" ++ r ++ ">")
    | some token =>
        if array_def.length > 1 then
          match array_def.get? 1 with
          | some length => .ok ("ARRAY<" ++ pyStr token ++ "(" ++ pyStr length ++ ")" ++ ">")
          | none => .error .parseException
        else .ok ("ARRAY<" ++ pyStr token ++ ">")

/-- HQLType.generate_map key handling.  Note the source tests
`length.isnumeric` without calling it: a bound method is always truthy, so
for a DECIMAL/NUMERIC key the token after the key is always consumed as a
length; when that token is a list (or int) the attribute lookup itself
raises AttributeError. -/
def genMap : Nat → List PyVal → Except PyErr String
  | 0, _ => .error .outOfFuel
  | fuel + 1, map_def =>
    match map_def.get? 0 with
    | none => .error .parseException
    | some token =>
      if listContainsStr Definitions.CHAR_TYPES token then
        match map_def.get? 1 with
        | none => .error .parseException
        | some length =>
            genMapVal fuel (pyStr token ++ "(" ++ pyStr length ++ ")") (map_def.drop 2)
      else if listContainsStr Definitions.DECIMAL_TYPES token then
        match map_def.get? 1 with
        | none => .error .parseException
        | some (.str ls) =>
            genMapVal fuel (pyStr token ++ "(" ++ ls ++ ")") (map_def.drop 2)
        | some _ => .error .attributeError
      else genMapVal fuel (pyStr token) (map_def.drop 1)

/-- HQLType.generate_map value handling over the remaining tokens. -/
def genMapVal : Nat → String → List PyVal → Except PyErr String
  | 0, _, _ => .error .outOfFuel
  | fuel + 1, key, value_type =>
    match value_type.get? 0 with
    | none => .error .parseException
    | some (.lst xs) => do
        let v ← genFuel fuel xs
        .ok ("MAP<" ++ key ++ ", " ++ v ++ ">")
    | some v0 =>
        if value_type.length > 1 then
          match value_type.get? 1 with
          | some v1 => .ok ("MAP<" ++ key ++ ", " ++ pyStr v0 ++ "(" ++ pyStr v1 ++ ")" ++ ">")
          | none => .error .parseException
        else .ok ("MAP<" ++ key ++ ", " ++ pyStr v0 ++ ">")

/-- HQLType.generate_struct. -/
def genStruct : Nat → List PyVal → Except PyErr String
  | 0, _ => .error .outOfFuel
  | fuel + 1, struct_def => do
    let body ← genStructLoop fuel true struct_def
    .ok ("STRUCT<" ++ body ++ ">")

/-- The while loop of generate_struct, on the suffix from the current
index; `first` tracks `index > 0` for the comma. -/
def genStructLoop : Nat → Bool → List PyVal → Except PyErr String
  | 0, _, _ => .error .outOfFuel
  | fuel + 1, first, rest =>
    match rest with
    | [] => .ok ""
    | col_name :: rest1 =>
      let comma := if first then "" else ", "
      match rest1.get? 0 with
      | none => .error .parseException
      | some (.lst xs) => do
          let r ← genFuel fuel xs
          genStructCont fuel (comma ++ pyStr col_name ++ ":" ++ r) (rest1.drop 1)
      | some col_type =>
          if listContainsStr Definitions.CHAR_TYPES col_type then
            match rest1.get? 1 with
            | none => .error .parseException
            | some length =>
                genStructCont fuel
                  (comma ++ pyStr col_name ++ ":" ++ pyStr col_type ++ "(" ++ pyStr length ++ ")")
                  (rest1.drop 2)
          else if listContainsStr Definitions.DECIMAL_TYPES col_type then
            match rest1.get? 1 with
            | none => .error .parseException
            | some (.str ls) =>
                genStructCont fuel
                  (comma ++ pyStr col_name ++ ":" ++ pyStr col_type ++ "(" ++ ls ++ ")")
                  (rest1.drop 2)
            | some _ => .error .attributeError
          else
            genStructCont fuel (comma ++ pyStr col_name ++ ":" ++ pyStr col_type) (rest1.drop 1)

/-- The optional COMMENT lookahead after one struct member, then the next
loop iteration. -/
def genStructCont : Nat → String → List PyVal → Except PyErr String
  | 0, _, _ => .error .outOfFuel
  | fuel + 1, piece, rest2 =>
    match rest2.get? 0 with
    | some v => do
        let c ← pyContainsQuote v
        if c then do
          let tail ← genStructLoop fuel false (rest2.drop 1)
          .ok (piece ++ " COMMENT " ++ pyStr v ++ tail)
        else do
          let tail ← genStructLoop fuel false rest2
          .ok (piece ++ tail)
    | none => do
        let tail ← genStructLoop fuel false rest2
        .ok (piece ++ tail)

/-- HQLType.generate_union. -/
def genUnion : Nat → List PyVal → Except PyErr String
  | 0, _ => .error .outOfFuel
  | fuel + 1, union_def => do
    let body ← genUnionLoop fuel true union_def
    .ok ("UNION<" ++ body ++ ">")

/-- The while loop of generate_union. -/
def genUnionLoop : Nat → Bool → List PyVal → Except PyErr String
  | 0, _, _ => .error .outOfFuel
  | fuel + 1, first, rest =>
    match rest with
    | [] => .ok ""
    | token :: rest1 =>
      let comma := if first then "" else ", "
      match token with
      | .lst xs => do
          let r ← genFuel fuel xs
          let tail ← genUnionLoop fuel false rest1
          .ok (comma ++ r ++ tail)
      | _ =>
          if listContainsStr Definitions.CHAR_TYPES token then
            match rest1.get? 0 with
            | none => .error .parseException
            | some length => do
                let tail ← genUnionLoop fuel false (rest1.drop 1)
                .ok (comma ++ pyStr token ++ "(" ++ pyStr length ++ ")" ++ tail)
          else if listContainsStr Definitions.DECIMAL_TYPES token then
            match rest1.get? 0 with
            | none => .error .parseException
            | some (.str ls) => do
                let tail ← genUnionLoop fuel false (rest1.drop 1)
                .ok (comma ++ pyStr token ++ "(" ++ ls ++ ")" ++ tail)
            | some _ => .error .attributeError
          else do
            let tail ← genUnionLoop fuel false rest1
            .ok (comma ++ pyStr token ++ tail)

end

namespace HQLType

/-- HQLType.generate entry point with ample fuel for its input. -/
def generate (type_definition : List PyVal) : Except PyErr String :=
  genFuel (4 * pySizeList type_definition + 8) type_definition

/-- HQLType.generate_array entry point. -/
def generate_array (array_def : List PyVal) : Except PyErr String :=
  genArray (4 * pySizeList array_def + 8) array_def

/-- HQLType.generate_map entry point. -/
def generate_map (map_def : List PyVal) : Except PyErr String :=
  genMap (4 * pySizeList map_def + 8) map_def

/-- HQLType.generate_struct entry point. -/
def generate_struct (struct_def : List PyVal) : Except PyErr String :=
  genStruct (4 * pySizeList struct_def + 8) struct_def

/-- HQLType.generate_union entry point. -/
def generate_union (union_def : List PyVal) : Except PyErr String :=
  genUnion (4 * pySizeList union_def + 8) union_def

end HQLType

/-
  src/model/*.py — the entity value classes.  Key/value property lists
  (KEY_VALUE_PAIR groups) are modelled as pairs; the grammar only ever
  produces two-element inner lists there.
-/

/-- src/model/column.py.  `type` is either a raw string (primitive type)
or the `asList()` tree of a complex type. -/
structure Column where
  name : String
  type : PyVal
  length : Option String
  comment : Option String
deriving DecidableEq

/-- src/model/location.py. -/
structure Location where
  location : String
deriving DecidableEq

/-- src/model/clustered_by.py. -/
structure ClusteredBy where
  columns : List String
  buckets : Int
  sorted_by : Option (List (List String))
deriving DecidableEq

/-- src/model/row_format.py. -/
structure RowFormat where
  row_format : String
  fields_terminated_by : Option String := none
  escaped_by : Option String := none
  collection_items_terminated_by : Option String := none
  map_keys_terminated_by : Option String := none
  lines_terminated_by : Option String := none
  null_defined_as : Option String := none
  serde : Option String := none
  serde_properties : Option (List (String × String)) := none
deriving DecidableEq

/-- src/model/skewed_by.py. -/
structure SkewedBy where
  columns : List String
  values : List PyVal
  stored_as_directories : Bool
deriving DecidableEq

/-- src/model/storage.py. -/
structure Storage where
  storage : String
  storage_qualifier : String
  serde_properties : Option (List (String × String))
deriving DecidableEq

/-- src/model/table_properties.py. -/
structure TableProperties where
  table_properties : List (String × String)
deriving DecidableEq

/-- src/model/table.py.  Columns are the insertion-ordered dictionary,
modelled as an ordered association list. -/
structure Table where
  name : String
  modifier : Option String
  comment : Option String
  partition : Option (List PyVal)
  columns : List (String × Column)
  location : Option Location
  clustered_by : Option ClusteredBy
  row_format : Option RowFormat
  skewed_by : Option SkewedBy
  storage : Option Storage
  table_properties : Option TableProperties
deriving DecidableEq

/-- Python truthiness of an optional string (None and the empty string are
falsy). -/
def pyTruthyOptStr : Option String → Bool
  | none => false
  | some s => s ≠ ""

/-- Python truthiness of an optional list (None and the empty list are
falsy). -/
def pyTruthyOptList : Option (List α) → Bool
  | none => false
  | some l => !l.isEmpty

/-- Helper joining strings with a comma and a space. -/
def joinComma (l : List String) : String :=
  String.intercalate (", ") l

/-- Rendering of a key/value property list, `f"\x7bkey\x7d=\x7bvalue\x7d"`
comma-joined, shared by RowFormat/Storage/TableProperties. -/
def propsJoin (ps : List (String × String)) : String :=
  joinComma (ps.map (fun p => p.1 ++ "=" ++ p.2))

/-- Location.hql. -/
def Location.hql (l : Location) : String :=
  "LOCATION " ++ l.location

/-- The SORTED BY element renderer inside ClusteredBy.hql: a two-element
pair renders column and order, a singleton renders the column only, any
other shape contributes nothing (only the comma logic advances). -/
def sortedPiece (first : Bool) (sort : List String) : String :=
  let comma := if first then "" else ", "
  match sort with
  | [col, ord] => comma ++ "`" ++ col ++ "` " ++ ord
  | [col] => comma ++ "`" ++ col ++ "`"
  | _ => ""

/-- The enumerate loop of ClusteredBy.hql over the sort spec. -/
def sortedLoop : Bool → List (List String) → String
  | _, [] => ""
  | first, s :: rest => sortedPiece first s ++ sortedLoop false rest

/-- ClusteredBy.hql. -/
def ClusteredBy.hql (cb : ClusteredBy) : String :=
  let column_def := "(" ++ joinComma (cb.columns.map (fun c => "`" ++ c ++ "`")) ++ ")"
  let bucket_def := "INTO " ++ toString cb.buckets ++ " BUCKETS"
  let sorted_def :=
    if pyTruthyOptList cb.sorted_by then
      " SORTED BY (" ++ sortedLoop true (cb.sorted_by.getD []) ++ ")"
    else ""
  "CLUSTERED BY " ++ column_def ++ sorted_def ++ " " ++ bucket_def

/-- RowFormat.hql: returns `none` (Python returns None implicitly) when
row_format is neither DELIMITED nor SERDE, which makes `repr` raise. -/
def RowFormat.hql (rf : RowFormat) : Option String :=
  if rf.row_format = "DELIMITED" then
    let f := match rf.fields_terminated_by with
      | some v => if v = "" then "" else "FIELDS TERMINATED BY " ++ v ++ " "
      | none => ""
    let e := match rf.escaped_by with
      | some v => if v = "" then "" else "ESCAPED BY " ++ v ++ " "
      | none => ""
    let c := match rf.collection_items_terminated_by with
      | some v => if v = "" then "" else "COLLECTION ITEMS TERMINATED BY " ++ v
      | none => ""
    let m := match rf.map_keys_terminated_by with
      | some v => if v = "" then "" else "MAP KEYS TERMINATED BY " ++ v ++ " "
      | none => ""
    let l := match rf.lines_terminated_by with
      | some v => if v = "" then "" else "LINES TERMINATED BY " ++ v ++ " "
      | none => ""
    let n := match rf.null_defined_as with
      | some v => if v = "" then "" else "NULL DEFINED AS " ++ v ++ " "
      | none => ""
    some ("ROW FORMAT " ++ rf.row_format ++ " " ++ f ++ e ++ c ++ m ++ l ++ n)
  else if rf.row_format = "SERDE" then
    let with_properties :=
      if pyTruthyOptList rf.serde_properties then
        " WITH SERDEPROPERTIES(" ++ propsJoin (rf.serde_properties.getD []) ++ ")"
      else ""
    some ("ROW FORMAT " ++ rf.row_format ++ " " ++ rf.serde.getD ("None") ++ with_properties)
  else none

/-- The inner tuple rendering of SkewedBy.hql: `str` over each member of a
skew tuple; Python iterates strings character by character and fails on
ints with TypeError. -/
def skewedTuple : PyVal → Except PyErr String
  | .lst xs => .ok ("(" ++ joinComma (xs.map pyStr) ++ ")")
  | .str s => .ok ("(" ++ joinComma (s.data.map (fun ch => String.singleton ch)) ++ ")")
  | .intv _ => .error .typeError

/-- SkewedBy.hql: IndexError on an empty value list propagates (nothing
catches it on this path). -/
def SkewedBy.hql (sk : SkewedBy) : Except PyErr String := do
  let columns := "(" ++ joinComma (sk.columns.map (fun c => "`" ++ c ++ "`")) ++ ")"
  let stored_as_directories := if sk.stored_as_directories then " STORED AS DIRECTORIES" else ""
  match sk.values with
  | [] => .error .indexError
  | v0 :: _ =>
    let values ←
      match v0 with
      | .lst _ => do
          let rendered ← sk.values.mapM skewedTuple
          pure (joinComma rendered)
      | _ => pure (joinComma (sk.values.map pyStr))
    .ok ("SKEWED BY " ++ columns ++ " ON (" ++ values ++ ")" ++ stored_as_directories)

/-- Storage.hql. -/
def Storage.hql (st : Storage) : String :=
  let with_properties :=
    if pyTruthyOptList st.serde_properties then
      " WITH SERDEPROPERTIES(" ++ propsJoin (st.serde_properties.getD []) ++ ")"
    else ""
  "STORED " ++ st.storage_qualifier ++ " " ++ st.storage ++ with_properties

/-- TableProperties.hql. -/
def TableProperties.hql (tp : TableProperties) : String :=
  "TBLPROPERTIES(" ++ propsJoin tp.table_properties ++ ")"

/-- Column.comment_def. -/
def Column.comment_def (c : Column) : String :=
  match c.comment with
  | some v => if v = "" then "" else "COMMENT " ++ v
  | none => ""

/-- Column.length_def. -/
def Column.length_def (c : Column) : String :=
  match c.length with
  | some v => if v = "" then "" else "(" ++ v ++ ")"
  | none => ""

/-- Column.type_def: complex type trees go through HQLType.generate. -/
def Column.type_def (c : Column) : Except PyErr String :=
  match c.type with
  | .lst xs => HQLType.generate xs
  | t => .ok (pyStr t ++ c.length_def)

/-- Column.hql (also Column.repr and the f-string form of a column). -/
def Column.hql (c : Column) : Except PyErr String := do
  let td ← c.type_def
  .ok ("`" ++ c.name ++ "` " ++ td ++ " " ++ c.comment_def)

/-
  Python `!=` semantics per Table attribute, as dispatched at runtime.
  Location.__ne__ carries an explicit None/isinstance guard returning
  False, so a present/absent pair compares not-unequal.  The other entity
  classes define `__ne__` as `not (self == other)` and their `__eq__`
  dereferences `other.<field>` without a guard, so a present/absent pair
  raises AttributeError (in either operand order, via reflection).
-/

/-- Python `old.location != new.location`. -/
def pyNeLoc : Option Location → Option Location → Bool
  | some a, some b => a.location ≠ b.location
  | _, _ => false

/-- Python `old.attr != new.attr` for ClusteredBy/RowFormat/SkewedBy/
Storage/TableProperties: structural on two instances, False on two Nones,
AttributeError when present on exactly one side. -/
def pyNeEnt [DecidableEq α] : Option α → Option α → Except PyErr Bool
  | none, none => .ok false
  | some a, some b => .ok (a ≠ b)
  | _, _ => .error .attributeError

/-- The `defaultdict(list)` diff record of TableDiff.diff_columns: a key
exists only once something was appended under it. -/
structure ColumnsDiff where
  added : Option (List Column)
  changed : Option (List Column)
deriving DecidableEq

/-- `defaultdict(list)` append: creates the key on first use. -/
def dd_append (o : Option (List Column)) (c : Column) : Option (List Column) :=
  some (o.getD [] ++ [c])

/-- The diff dictionary produced by TableDiff.diff: each field is `some`
exactly when the corresponding key is in the dict. -/
structure DiffRecord where
  name : Option String
  comment : Option String
  modifier : Option String
  partition : Option (List PyVal)
  location : Option Location
  clustered_by : Option ClusteredBy
  row_format : Option RowFormat
  skewed_by : Option SkewedBy
  storage : Option Storage
  table_properties : Option TableProperties
  columns : Option ColumnsDiff
deriving DecidableEq

/-- The empty diff dictionary. -/
def DiffRecord.empty : DiffRecord :=
  ⟨none, none, none, none, none, none, none, none, none, none, none⟩

/-- Ordered-dictionary lookup on the column association list. -/
def lookupCol (l : List (String × Column)) (k : String) : Option Column :=
  (l.find? (fun p => p.1 = k)).map Prod.snd

namespace TableDiff

/-- TableDiff.diff_columns: the set difference of key sets triggers
UnsafeOperationException; otherwise new's keys are walked in declaration
order, filling `added`/`changed`. -/
def diff_columns (old new : List (String × Column)) :
    Except PyErr ColumnsDiff :=
  let oldKeys := old.map Prod.fst
  let newKeys := new.map Prod.fst
  if oldKeys.any (fun k => !(newKeys.contains k)) then
    .error .unsafeOperation
  else
    .ok (newKeys.eraseDups.foldl (fun acc nm =>
      match lookupCol old nm, lookupCol new nm with
      | o, some ncol =>
          if o ≠ some ncol then
            if o = none then { acc with added := dd_append acc.added ncol }
            else { acc with changed := dd_append acc.changed ncol }
          else acc
      | _, none => acc) ⟨none, none⟩)

/-- TableDiff.diff: the attribute loop in source order, then the bespoke
column handling.  An attribute enters the dict only when the Python `!=`
comparison returns True and the new value is truthy. -/
def diff (old new : Table) : Except PyErr DiffRecord := do
  let dName := if old.name ≠ new.name ∧ new.name ≠ "" then some new.name else none
  let dComment := if old.comment ≠ new.comment ∧ pyTruthyOptStr new.comment then new.comment else none
  let dModifier := if old.modifier ≠ new.modifier ∧ pyTruthyOptStr new.modifier then new.modifier else none
  let dPartition := if old.partition ≠ new.partition ∧ pyTruthyOptList new.partition then new.partition else none
  let dLocation := if pyNeLoc old.location new.location then new.location else none
  let neCB ← pyNeEnt old.clustered_by new.clustered_by
  let dCB := if neCB then new.clustered_by else none
  let neRF ← pyNeEnt old.row_format new.row_format
  let dRF := if neRF then new.row_format else none
  let neSK ← pyNeEnt old.skewed_by new.skewed_by
  let dSK := if neSK then new.skewed_by else none
  let neST ← pyNeEnt old.storage new.storage
  let dST := if neST then new.storage else none
  let neTP ← pyNeEnt old.table_properties new.table_properties
  let dTP := if neTP then new.table_properties else none
  let dColumns ←
    if old.columns ≠ new.columns then
      (diff_columns old.columns new.columns).map some
    else pure none
  pure ⟨dName, dComment, dModifier, dPartition, dLocation, dCB, dRF, dSK, dST, dTP, dColumns⟩

end TableDiff

namespace HQLStatement

/-- HQLStatement.add_columns. -/
def add_columns (table : Table) (columns : List Column) : Except PyErr String := do
  let rendered ← columns.mapM Column.hql
  .ok ("ALTER TABLE `" ++ table.name ++ "` ADD COLUMNS (" ++ joinComma rendered ++ ");")

/-- HQLStatement.change_column. -/
def change_column (table : Table) (column : Column) : Except PyErr String := do
  let h ← column.hql
  .ok ("ALTER TABLE `" ++ table.name ++ "` CHANGE COLUMN `" ++ column.name ++ "` " ++ h ++ ";")

/-- HQLStatement.set_clustered_by. -/
def set_clustered_by (table : Table) (clustered_by : ClusteredBy) : String :=
  "ALTER TABLE `" ++ table.name ++ "` SET " ++ clustered_by.hql ++ ";"

/-- HQLStatement.set_modifier: the EXTERNAL toggle via TBLPROPERTIES. -/
def set_modifier (table : Table) (modifier : Option String) : String :=
  let external := if modifier = some "EXTERNAL" then "\x27TRUE\x27" else "\x27FALSE\x27"
  let properties := TableProperties.mk [("\x27EXTERNAL\x27", external)]
  "ALTER TABLE `" ++ table.name ++ "` SET " ++ properties.hql ++ ";"

/-- HQLStatement.set_location. -/
def set_location (table : Table) (location : Location) : String :=
  "ALTER TABLE `" ++ table.name ++ "` SET " ++ location.hql ++ ";"

/-- HQLStatement.set_row_format: formatting the RowFormat calls its repr,
which raises TypeError when `hql` returns None. -/
def set_row_format (table : Table) (row_format : RowFormat) : Except PyErr String :=
  match row_format.hql with
  | some h => .ok ("ALTER TABLE `" ++ table.name ++ "` SET " ++ h ++ ";")
  | none => .error .typeError

/-- HQLStatement.set_skewed_by. -/
def set_skewed_by (table : Table) (skewed_by : SkewedBy) : Except PyErr String := do
  let h ← skewed_by.hql
  .ok ("ALTER TABLE `" ++ table.name ++ "` SET " ++ h ++ ";")

/-- HQLStatement.set_storage. -/
def set_storage (table : Table) (storage : Storage) : String :=
  "ALTER TABLE `" ++ table.name ++ "` SET " ++ storage.hql ++ ";"

/-- HQLStatement.set_table_properties. -/
def set_table_properties (table : Table) (table_properties : TableProperties) : String :=
  "ALTER TABLE `" ++ table.name ++ "` SET " ++ table_properties.hql ++ ";"

/-- The `if "added" in columns` part of the columns block: one ADD COLUMNS
statement when the defaultdict created the key. -/
def addedStmts (table : Table) : Option (List Column) → Except PyErr (List String)
  | none => pure []
  | some cols => do
      let s ← add_columns table cols
      pure [s]

/-- The `for column in columns.get("changed")` part: iterating the None
returned by a missing `changed` key raises TypeError; otherwise one CHANGE
COLUMN statement per changed column. -/
def changedStmts (table : Table) : Option (List Column) → Except PyErr (List String)
  | none => Except.error PyErr.typeError
  | some cols => cols.mapM (change_column table)

/-- The columns block of HQLStatement.from_diff.  When the diff has a
`columns` entry, `columns.get("changed")` is iterated unconditionally;
since `diff_columns` returns a defaultdict whose keys exist only after an
append, a missing `changed` key yields None and iterating it raises
TypeError. -/
def columnStatements (table : Table) : Option ColumnsDiff → Except PyErr (List String)
  | none => .ok []
  | some cd => do
      let a ← addedStmts table cd.added
      let c ← changedStmts table cd.changed
      pure (a ++ c)

/-- One optional SET statement from a total builder. -/
def optStmt (f : α → String) : Option α → List String
  | none => []
  | some a => [f a]

/-- One optional SET statement from a builder that can raise. -/
def optStmtE (f : α → Except PyErr String) : Option α → Except PyErr (List String)
  | none => pure []
  | some a => do
      let s ← f a
      pure [s]

/-- The non-column blocks of HQLStatement.from_diff, in source order. -/
def settingStatements (table : Table) (diff : DiffRecord) : Except PyErr (List String) := do
  let s2 := optStmt (set_clustered_by table) diff.clustered_by
  let s3 := optStmt (set_location table) diff.location
  let s4 := optStmt (fun m => set_modifier table (some m)) diff.modifier
  let s5 ← optStmtE (set_row_format table) diff.row_format
  let s6 ← optStmtE (set_skewed_by table) diff.skewed_by
  let s7 := optStmt (set_storage table) diff.storage
  let s8 := optStmt (set_table_properties table) diff.table_properties
  pure (s2 ++ s3 ++ s4 ++ s5 ++ s6 ++ s7 ++ s8)

/-- HQLStatement.from_diff: a partition entry fails hard first, then the
statement list is built by appending the column block and the setting
blocks in the source's fixed order. -/
def from_diff (table : Table) (diff : DiffRecord) : Except PyErr (List String) :=
  match diff.partition with
  | some _ => .error .unsafeOperation
  | none => do
      let cols ← columnStatements table diff.columns
      let settings ← settingStatements table diff
      pure (cols ++ settings)

end HQLStatement

/-- Beeswax.get_hql_diff: the diff-then-generate pipeline; the statement
generator receives the new table. -/
def get_hql_diff (old new : Table) : Except PyErr (List String) := do
  let d ← TableDiff.diff old new
  HQLStatement.from_diff new d

/-
  src/model/model_factory.py and src/parser/hql_parser.py.  The pyparsing
  result object is modelled at the named-results level: each grammar clause
  that matched is a populated optional field, mirroring exactly the fields
  the factory methods read.
-/

/-- One entry of `column_list` (or of a partition list) in the raw parse
results. -/
structure RawColumn where
  column_name : String
  column_type : PyVal
  length : Option String
  comment : Option String
deriving DecidableEq

/-- The DELIMITED/SERDE alternative captured under `row_format`. -/
inductive RawRowFormat where
  | delimited (fields_terminated_by escaped_by collection_items_terminated_by
      map_keys_terminated_by lines_terminated_by null_defined_as : Option String)
  | serde (serde : String) (serde_properties : Option (List (String × String)))
deriving DecidableEq

/-- The named results of a successful CREATE TABLE parse. -/
structure RawParse where
  table_name : String
  table_modifier : Option String
  comment : Option String
  partition : Option (List PyVal)
  column_list : List RawColumn
  location : Option String
  clustered_by : Option (List String × Int × Option (List (List String)))
  skewed_by : Option (List String × List PyVal × Bool)
  row_format : Option RawRowFormat
  stored_as : Option String
  stored_by : Option (String × Option (List (String × String)))
  properties : Option (List (String × String))
deriving DecidableEq

namespace ModelFactory

/-- ModelFactory.get_column: empty length/comment captures become None. -/
def get_column (r : RawColumn) : Column :=
  let length := match r.length with
    | some s => if s = "" then none else some s
    | none => none
  let comment := match r.comment with
    | some s => if s = "" then none else some s
    | none => none
  Column.mk r.column_name r.column_type length comment

/-- ModelFactory.get_columns: the ordered dictionary keyed by column name. -/
def get_columns (r : RawParse) : List (String × Column) :=
  r.column_list.map (fun c => (c.column_name, get_column c))

/-- ModelFactory.get_location. -/
def get_location (r : RawParse) : Option Location :=
  match r.location with
  | some s => if s = "" then none else some (Location.mk s)
  | none => none

/-- ModelFactory.get_clustered_by. -/
def get_clustered_by (r : RawParse) : Option ClusteredBy :=
  r.clustered_by.map (fun c => ClusteredBy.mk c.1 c.2.1 c.2.2)

/-- ModelFactory.get_skewed_by. -/
def get_skewed_by (r : RawParse) : Option SkewedBy :=
  r.skewed_by.map (fun s => SkewedBy.mk s.1 s.2.1 s.2.2)

/-- ModelFactory.get_row_format. -/
def get_row_format (r : RawParse) : Option RowFormat :=
  match r.row_format with
  | none => none
  | some (.delimited f e c m l n) =>
      some { row_format := "DELIMITED", fields_terminated_by := f, escaped_by := e,
             collection_items_terminated_by := c, map_keys_terminated_by := m,
             lines_terminated_by := l, null_defined_as := n }
  | some (.serde s props) =>
      some { row_format := "SERDE", serde := some s, serde_properties := props }

/-- ModelFactory.get_storage: in the STORED AS branch (and in the STORED
BY branch without serde properties) the local `serde_properties` is None
and the unconditional `serde_properties.asList()` raises AttributeError. -/
def get_storage (r : RawParse) : Except PyErr (Option Storage) :=
  if r.stored_as = none ∧ r.stored_by = none then .ok none
  else
    match r.stored_as with
    | some _ => .error .attributeError
    | none =>
      match r.stored_by with
      | some (cls, some props) => .ok (some (Storage.mk cls ("BY") props))
      | some (_, none) => .error .attributeError
      | none => .ok none

/-- ModelFactory.get_table_properties. -/
def get_table_properties (r : RawParse) : Option TableProperties :=
  r.properties.map TableProperties.mk

/-- ModelFactory.get_table: the base table before the setters run. -/
def get_table (r : RawParse) : Table :=
  let modifier := match r.table_modifier with
    | some s => if s = "" then none else some s
    | none => none
  let comment := match r.comment with
    | some s => if s = "" then none else some s
    | none => none
  ⟨r.table_name, modifier, comment, r.partition, [], none, none, none, none, none, none⟩

end ModelFactory

namespace HQLParser

/-- HQLParser.parse_create_table: builds the Table and runs every factory
setter; the unconditional get_storage call propagates its AttributeError,
so no Table is returned for such inputs. -/
def parse_create_table (r : RawParse) : Except PyErr Table := do
  let base := ModelFactory.get_table r
  let cols := ModelFactory.get_columns r
  let loc := ModelFactory.get_location r
  let cb := ModelFactory.get_clustered_by r
  let sk := ModelFactory.get_skewed_by r
  let rf := ModelFactory.get_row_format r
  let st ← ModelFactory.get_storage r
  let tp := ModelFactory.get_table_properties r
  let result : Table :=
    { base with
      columns := cols
      location := loc
      clustered_by := cb
      skewed_by := sk
      row_format := rf
      storage := st
      table_properties := tp }
  pure result

end HQLParser

/-
  src/model/location.py comparison protocol against arbitrary second
  operands.  `pynone` is Python None and `other` stands for any object
  that is not a Location and carries no `location` attribute.
-/

/-- The second operand of a Location comparison. -/
inductive LocOperand where
  | pynone
  | loc (l : Location)
  | other
deriving DecidableEq

/-- Location.__eq__: dereferences `other.location` with no guard, so None
and attribute-less objects raise AttributeError. -/
def Location.eqPy (l : Location) : LocOperand → Except PyErr Bool
  | .loc l2 => .ok (l.location = l2.location)
  | _ => .error .attributeError

/-- Location.__ne__: the explicit None/isinstance guard returns False for
any non-Location operand. -/
def Location.nePy (l : Location) : LocOperand → Except PyErr Bool
  | .loc l2 => .ok (l.location ≠ l2.location)
  | _ => .ok false

/-
  Concrete tables and columns, as the parser builds them from the DDL
  snippets quoted in the statements below.
-/

/-- The column `a INT`. -/
def col_a : Column := ⟨"a", .str ("INT"), none, none⟩

/-- The column `b STRING`. -/
def col_b : Column := ⟨"b", .str ("STRING"), none, none⟩

/-- The column `c INT`. -/
def col_c : Column := ⟨"c", .str ("INT"), none, none⟩

/-- `CREATE TABLE t (a INT)`. -/
def scenario1_old : Table :=
  ⟨"t", none, none, none, [("a", col_a)], none, none, none, none, none, none⟩

/-- `CREATE TABLE t (a INT, b STRING)`. -/
def scenario1_new : Table :=
  ⟨"t", none, none, none, [("a", col_a), ("b", col_b)], none, none, none, none, none, none⟩

/-- `CREATE TABLE t (a INT) PARTITIONED BY (ds STRING)`. -/
def part_old : Table :=
  ⟨"t", none, none, some [.lst [.str ("ds"), .str ("STRING")]],
   [("a", col_a)], none, none, none, none, none, none⟩

/-- `CREATE TABLE t (a INT)` — the same table with the partition clause
removed. -/
def part_new : Table :=
  ⟨"t", none, none, none, [("a", col_a)], none, none, none, none, none, none⟩

/-- `CREATE TABLE t (a INT)` with a different partition list
`PARTITIONED BY (hr STRING)`. -/
def part_new2 : Table :=
  ⟨"t", none, none, some [.lst [.str ("hr"), .str ("STRING")]],
   [("a", col_a)], none, none, none, none, none, none⟩

/-- Old table for the column-removal counterexample: columns a, b and a
TBLPROPERTIES clause. -/
def rm_old : Table :=
  ⟨"t", none, none, none, [("a", col_a), ("b", col_b)], none, none, none, none, none,
   some ⟨[("\x27k\x27", "\x27v\x27")]⟩⟩

/-- New table for the column-removal counterexample: column b and the
TBLPROPERTIES clause are gone. -/
def rm_new : Table :=
  ⟨"t", none, none, none, [("a", col_a)], none, none, none, none, none, none⟩

/-- Old table for the location counterexample: no LOCATION clause. -/
def locadd_old : Table :=
  ⟨"t", none, none, none, [("a", col_a)], none, none, none, none, none, none⟩

/-- New table for the location counterexample: `LOCATION '/x'`. -/
def locadd_new : Table :=
  ⟨"t", none, none, none, [("a", col_a)], some ⟨"\x27/x\x27"⟩, none, none, none, none, none⟩

/-- Tables for the attribute-rule witness: locations '/x' vs '/y'. -/
def locchg_old : Table :=
  ⟨"t", none, none, none, [("a", col_a)], some ⟨"\x27/x\x27"⟩, none, none, none, none, none⟩

/-- New table with the changed location '/y'. -/
def locchg_new : Table :=
  ⟨"t", none, none, none, [("a", col_a)], some ⟨"\x27/y\x27"⟩, none, none, none, none, none⟩

/-- The diff record of locchg_old → locchg_new. -/
def locchg_d : DiffRecord :=
  { DiffRecord.empty with location := some ⟨"\x27/y\x27"⟩ }

/-- Diff record exercising both column statements and a location change,
for the ordering claim. -/
def order_d : DiffRecord :=
  { DiffRecord.empty with
    columns := some ⟨some [col_b], some [col_c]⟩
    location := some ⟨"\x27/y\x27"⟩ }

/-- The column whose type is `MAP<DECIMAL, STRING>`, as parsed. -/
def col_map_decimal : Column :=
  ⟨"a", .lst [.str ("MAP"), .lst [.str ("DECIMAL"), .str ("STRING")]], none, none⟩

/-- Parse results of a CREATE TABLE statement carrying `STORED AS ORC`. -/
def raw_stored_as_orc : RawParse :=
  ⟨"t", none, none, none, [⟨"a", .str ("INT"), none, none⟩],
   none, none, none, none, some ("ORC"), none, none⟩

/-
  Statement-shape vocabulary for the ordering claim.
-/

/-- The common `ALTER TABLE \x60name\x60 ` head of every generated
statement. -/
def alterPre (t : Table) : String :=
  "ALTER TABLE `" ++ t.name ++ "` "

/-- A string of the exact form produced by add_columns or change_column
for the given table. -/
def colShaped (t : Table) (s : String) : Prop :=
  (∃ x, s = "ALTER TABLE `" ++ t.name ++ "` ADD COLUMNS (" ++ x) ∨
  (∃ x, s = "ALTER TABLE `" ++ t.name ++ "` CHANGE COLUMN `" ++ x)

/-- A string of the exact form produced by the seven SET builders for the
given table. -/
def setShaped (t : Table) (s : String) : Prop :=
  ∃ x, s = "ALTER TABLE `" ++ t.name ++ "` SET " ++ x

/-- The statement is an ADD COLUMNS or CHANGE COLUMN statement of the
table, recognized by its leading text. -/
def isColumnStatement (t : Table) (s : String) : Bool :=
  (alterPre t ++ "ADD COLUMNS (").data.isPrefixOf s.data ||
  (alterPre t ++ "CHANGE COLUMN `").data.isPrefixOf s.data

/-- The statement is the SET LOCATION statement of the table, recognized
by its leading text. -/
def isSetLocationStatement (t : Table) (s : String) : Bool :=
  (alterPre t ++ "SET LOCATION ").data.isPrefixOf s.data

/-
  Helper lemmas about the diff comparisons.
-/

theorem pyNeLoc_self (x : Option Location) : pyNeLoc x x = false := by
  cases x <;> simp [pyNeLoc]

theorem pyNeEnt_self [DecidableEq α] (x : Option α) : pyNeEnt x x = .ok false := by
  cases x <;> simp [pyNeEnt]

theorem pyNeEnt_ok [DecidableEq α] (a b : Option α) (h : a.isSome = b.isSome) :
    ∃ t, pyNeEnt a b = .ok t := by
  cases a <;> cases b
  · exact ⟨false, rfl⟩
  · simp at h
  · simp at h
  · exact ⟨_, rfl⟩

theorem except_bind_ok (a : α) (f : α → Except ε β) :
    (Except.ok a : Except ε α) >>= f = f a := rfl

theorem except_bind_error (e : ε) (f : α → Except ε β) :
    (Except.error e : Except ε α) >>= f = Except.error e := rfl

theorem except_map_ok (f : α → β) (a : α) :
    (Except.ok a : Except ε α).map f = .ok (f a) := rfl

theorem except_map_error (f : α → β) (e : ε) :
    (Except.error e : Except ε α).map f = .error e := rfl

theorem diff_columns_error_unsafe (o n : List (String × Column)) (e : PyErr)
    (h : TableDiff.diff_columns o n = .error e) : e = .unsafeOperation := by
  simp only [TableDiff.diff_columns] at h
  split at h
  · injection h with h2
    exact h2.symm
  · exact absurd h (by simp)

/-- C1: on the spec's concrete scenario 1 — old `CREATE TABLE t (a INT)`,
new `CREATE TABLE t (a INT, b STRING)` — the diff holds exactly one added
column and add_columns would render exactly the statement the spec quotes,
but the pipeline raises TypeError instead of returning it: from_diff
iterates `columns.get("changed")`, which is None because the defaultdict
from diff_columns never created a `changed` key. -/
theorem scenario_add_column_crashes :
    TableDiff.diff scenario1_old scenario1_new =
      .ok { DiffRecord.empty with columns := some ⟨some [col_b], none⟩ } ∧
    HQLStatement.add_columns scenario1_new [col_b] =
      .ok ("ALTER TABLE `t` ADD COLUMNS (`b` STRING );") ∧
    get_hql_diff scenario1_old scenario1_new = .error .typeError := by
  refine ⟨by decide, by decide, by decide⟩

/-- C4: diffing any table against itself yields the empty diff record and
generating statements from it returns the empty list. -/
theorem diff_self_generates_nothing (T : Table) :
    get_hql_diff T T = .ok [] := by
  have hd : TableDiff.diff T T = .ok DiffRecord.empty := by
    unfold TableDiff.diff
    simp [pyNeLoc_self, pyNeEnt_self, DiffRecord.empty, pyTruthyOptStr, pyTruthyOptList]
    rfl
  unfold get_hql_diff
  rw [hd]
  rfl

/-- C7: generate_map renders primitive, char, and decimal-with-length map
keys, but a DECIMAL key without a length makes it consume the value token
as a length (the untested `length.isnumeric` method object is always
truthy) and then fail with ParseException on the emptied value slice,
instead of returning `MAP<DECIMAL, STRING>`. -/
theorem generate_map_decimal_key_crashes :
    HQLType.generate_map [PyVal.str ("DECIMAL"), PyVal.str ("STRING")] = .error .parseException ∧
    HQLType.generate_map [PyVal.str ("INT"), PyVal.str ("STRING")] = .ok ("MAP<INT, STRING>") ∧
    HQLType.generate_map [PyVal.str ("CHAR"), PyVal.str ("3"), PyVal.str ("STRING")] =
      .ok ("MAP<CHAR(3), STRING>") ∧
    HQLType.generate_map [PyVal.str ("DECIMAL"), PyVal.str ("10,2"), PyVal.str ("STRING")] =
      .ok ("MAP<DECIMAL(10,2), STRING>") := by
  refine ⟨by decide, by decide, by decide, by decide⟩

/-- C8: the rendering leg of the entity round trip fails outright on a
table parsed from `CREATE TABLE t (a MAP<DECIMAL, STRING>)`: re-rendering
that Column raises ParseException (through type_def and generate_map), so
no reconstructed statement can be reparsed, let alone compared to the
original Table. -/
theorem roundtrip_render_crashes :
    col_map_decimal.type_def = .error .parseException ∧
    col_map_decimal.hql = .error .parseException := by
  refine ⟨by decide, by decide⟩

/-- C9: any parse result carrying a STORED AS clause, or a STORED BY
clause without WITH SERDEPROPERTIES, makes get_storage set the local
serde_properties to None and call asList() on it, so parse_create_table
raises AttributeError instead of returning a Table. -/
theorem parse_create_table_storage_crash (r : RawParse)
    (h : (∃ fmt, r.stored_as = some fmt) ∨ (∃ cls, r.stored_by = some (cls, none))) :
    HQLParser.parse_create_table r = .error .attributeError := by
  have hst : ModelFactory.get_storage r = .error .attributeError := by
    unfold ModelFactory.get_storage
    rcases h with ⟨fmt, hf⟩ | ⟨cls, hb⟩
    · rw [hf]
      simp
    · rw [hb]
      cases hsa : r.stored_as <;> simp [hsa]
  unfold HQLParser.parse_create_table
  rw [hst]
  rfl

/-- Closed witness for C9: a parse result holding `STORED AS ORC`. -/
theorem parse_create_table_storage_crash_witness :
    HQLParser.parse_create_table raw_stored_as_orc = .error .attributeError :=
  parse_create_table_storage_crash raw_stored_as_orc (Or.inl ⟨"ORC", rfl⟩)

/-- C10 counterexample: for L = Location('/x') and x = None, `L != x`
evaluates to False but `L == x` raises AttributeError rather than
evaluating to False, so the claim that both evaluate to False is wrong. -/
theorem location_eq_none_counterexample :
    Location.nePy (Location.mk ("\x27/x\x27")) LocOperand.pynone = .ok false ∧
    ¬ (Location.eqPy (Location.mk ("\x27/x\x27")) LocOperand.pynone = .ok false) := by
  refine ⟨by decide, by decide⟩

/-- C10 as amended: for every Location L and every operand x that is None
or a non-Location object, `L != x` evaluates to False — so inequality is
not the negation of equality and a present location never compares unequal
to an absent one — while `L == x` raises AttributeError instead of
evaluating to False. -/
theorem location_ne_eq_asymmetry (l : Location) :
    Location.nePy l LocOperand.pynone = .ok false ∧
    Location.nePy l LocOperand.other = .ok false ∧
    Location.eqPy l LocOperand.pynone = .error .attributeError ∧
    Location.eqPy l LocOperand.other = .error .attributeError := by
  exact ⟨rfl, rfl, rfl, rfl⟩

/-- C2 counterexample: the partitions of part_old and part_new differ (the
new table has no partition clause), yet the pipeline raises nothing and
returns the empty statement list. -/
theorem partition_drop_counterexample :
    part_old.partition ≠ part_new.partition ∧
    get_hql_diff part_old part_new = .ok [] := by
  refine ⟨by decide, by decide⟩

/-- C3 counterexample: rm_old has column b, which rm_new lacks, yet diff
raises AttributeError (from comparing a present TableProperties with an
absent one) rather than UnsafeOperationError. -/
theorem removed_column_attribute_error_counterexample :
    ("b" ∈ rm_old.columns.map Prod.fst) ∧ ("b" ∉ rm_new.columns.map Prod.fst) ∧
    TableDiff.diff rm_old rm_new = .error .attributeError ∧
    ¬ (TableDiff.diff rm_old rm_new = .error .unsafeOperation) := by
  refine ⟨by decide, by decide, by decide, by decide⟩

/-- C2 as amended: when the entity-attribute comparisons complete (each of
clustered_by/row_format/skewed_by/storage/table_properties present in both
tables or in neither — a one-sided presence raises AttributeError first),
a partition difference raises UnsafeOperationError exactly when the new
table's partition list is present and non-empty; removing the partition
clause entirely is silently ignored (see the counterexample). -/
theorem partition_change_unsafe (old new : Table)
    (hcb : old.clustered_by.isSome = new.clustered_by.isSome)
    (hrf : old.row_format.isSome = new.row_format.isSome)
    (hsk : old.skewed_by.isSome = new.skewed_by.isSome)
    (hst : old.storage.isSome = new.storage.isSome)
    (htp : old.table_properties.isSome = new.table_properties.isSome)
    (hne : old.partition ≠ new.partition)
    (p : List PyVal) (hp : new.partition = some p) (hpe : p ≠ []) :
    get_hql_diff old new = .error .unsafeOperation := by
  obtain ⟨b1, h1⟩ := pyNeEnt_ok old.clustered_by new.clustered_by hcb
  obtain ⟨b2, h2⟩ := pyNeEnt_ok old.row_format new.row_format hrf
  obtain ⟨b3, h3⟩ := pyNeEnt_ok old.skewed_by new.skewed_by hsk
  obtain ⟨b4, h4⟩ := pyNeEnt_ok old.storage new.storage hst
  obtain ⟨b5, h5⟩ := pyNeEnt_ok old.table_properties new.table_properties htp
  have hPart : (if old.partition ≠ new.partition ∧ pyTruthyOptList new.partition
      then new.partition else none) = some p := by
    rw [if_pos ⟨hne, by rw [hp]; simp [pyTruthyOptList, hpe]⟩]
    exact hp
  unfold get_hql_diff TableDiff.diff
  rw [h1, h2, h3, h4, h5]
  simp only [except_bind_ok, hPart]
  by_cases hc : old.columns = new.columns
  · rw [if_neg (fun hx => hx hc)]
    rfl
  · rw [if_pos hc]
    cases hdc : TableDiff.diff_columns old.columns new.columns with
    | error e =>
        have he : e = .unsafeOperation := diff_columns_error_unsafe _ _ _ hdc
        subst he
        rfl
    | ok cd => rfl

/-- Closed witness for C2 as amended: both tables carry a different,
non-empty partition list and the pipeline fails. -/
theorem partition_change_unsafe_witness :
    get_hql_diff part_old part_new2 = .error .unsafeOperation :=
  partition_change_unsafe part_old part_new2 rfl rfl rfl rfl rfl (by decide)
    [.lst [.str ("hr"), .str ("STRING")]] rfl (by decide)

/-- C3 as amended: when the entity-attribute comparisons complete (each of
clustered_by/row_format/skewed_by/storage/table_properties present in both
tables or in neither — a one-sided presence raises AttributeError first,
see the counterexample), a column name present in old but absent from new
makes the pipeline raise UnsafeOperationError from diff_columns before any
statement is produced. -/
theorem removed_column_unsafe (old new : Table)
    (hcb : old.clustered_by.isSome = new.clustered_by.isSome)
    (hrf : old.row_format.isSome = new.row_format.isSome)
    (hsk : old.skewed_by.isSome = new.skewed_by.isSome)
    (hst : old.storage.isSome = new.storage.isSome)
    (htp : old.table_properties.isSome = new.table_properties.isSome)
    (k : String) (hk : k ∈ old.columns.map Prod.fst)
    (hnk : k ∉ new.columns.map Prod.fst) :
    get_hql_diff old new = .error .unsafeOperation := by
  obtain ⟨b1, h1⟩ := pyNeEnt_ok old.clustered_by new.clustered_by hcb
  obtain ⟨b2, h2⟩ := pyNeEnt_ok old.row_format new.row_format hrf
  obtain ⟨b3, h3⟩ := pyNeEnt_ok old.skewed_by new.skewed_by hsk
  obtain ⟨b4, h4⟩ := pyNeEnt_ok old.storage new.storage hst
  obtain ⟨b5, h5⟩ := pyNeEnt_ok old.table_properties new.table_properties htp
  have hc : old.columns ≠ new.columns := by
    intro he
    rw [he] at hk
    exact hnk hk
  have hdc : TableDiff.diff_columns old.columns new.columns = .error .unsafeOperation := by
    simp only [TableDiff.diff_columns]
    rw [if_pos]
    exact List.any_eq_true.mpr ⟨k, hk, by simp [hnk]⟩
  unfold get_hql_diff TableDiff.diff
  rw [h1, h2, h3, h4, h5]
  simp only [except_bind_ok, if_pos hc, hdc, except_map_error, except_bind_error]

/-- Closed witness for C3 as amended: dropping column b with aligned
entity attributes fails with UnsafeOperationError. -/
theorem removed_column_unsafe_witness :
    get_hql_diff scenario1_new scenario1_old = .error .unsafeOperation :=
  removed_column_unsafe scenario1_new scenario1_old rfl rfl rfl rfl rfl "b"
    (by decide) (by decide)

theorem if_some_iff_str (a b : String) (v : String) :
    ((if a ≠ b ∧ b ≠ "" then some b else none) = some v) ↔
      a ≠ b ∧ b ≠ "" ∧ v = b := by
  split
  next hcond =>
    simp only [Option.some.injEq]
    constructor
    · intro hbv
      exact ⟨hcond.1, hcond.2, hbv.symm⟩
    · intro hx
      exact hx.2.2.symm
  next hcond =>
    constructor
    · intro hx
      exact Option.noConfusion hx
    · rintro ⟨hx1, hx2, _⟩
      exact absurd ⟨hx1, hx2⟩ hcond

theorem if_some_iff_optstr (a b : Option String) (v : String) :
    ((if a ≠ b ∧ pyTruthyOptStr b then b else none) = some v) ↔
      a ≠ b ∧ b = some v ∧ v ≠ "" := by
  cases b with
  | none =>
      rw [if_neg (by rintro ⟨_, h2⟩; simp [pyTruthyOptStr] at h2)]
      constructor
      · intro hx
        exact Option.noConfusion hx
      · rintro ⟨_, h2, _⟩
        exact Option.noConfusion h2
  | some s =>
      by_cases hs : s = ""
      · subst hs
        rw [if_neg (by rintro ⟨_, h2⟩; simp [pyTruthyOptStr] at h2)]
        constructor
        · intro hx
          exact Option.noConfusion hx
        · rintro ⟨_, h2, h3⟩
          exact absurd (Option.some.inj h2).symm h3
      · by_cases ha : a = some s
        · rw [if_neg (by rintro ⟨h1, _⟩; exact h1 ha)]
          constructor
          · intro hx
            exact Option.noConfusion hx
          · rintro ⟨h1, _, _⟩
            exact absurd ha h1
        · rw [if_pos ⟨ha, by simp [pyTruthyOptStr, hs]⟩]
          constructor
          · intro hx
            have hsv := Option.some.inj hx
            exact ⟨ha, hx, fun hv => hs (hsv.trans hv)⟩
          · rintro ⟨_, h2, _⟩
            exact h2

theorem if_some_iff_loc (o n : Option Location) (v : Location) :
    ((if pyNeLoc o n then n else none) = some v) ↔
      ∃ a, o = some a ∧ n = some v ∧ a.location ≠ v.location := by
  cases o with
  | none =>
      rw [show pyNeLoc none n = false from by cases n <;> rfl]
      simp
  | some a =>
      cases n with
      | none =>
          rw [show pyNeLoc (some a) none = false from rfl]
          simp
      | some c =>
          by_cases hac : a.location = c.location
          · rw [show pyNeLoc (some a) (some c) = false from by simp [pyNeLoc, hac]]
            simp only [Bool.false_eq_true, if_false]
            constructor
            · intro hx
              exact Option.noConfusion hx
            · rintro ⟨a', ha', hcv, hne⟩
              cases ha'
              cases hcv
              exact absurd hac hne
          · rw [show pyNeLoc (some a) (some c) = true from by simp [pyNeLoc, hac]]
            simp only [if_true]
            constructor
            · intro hx
              have hcv := Option.some.inj hx
              exact ⟨a, rfl, hx, hcv ▸ hac⟩
            · rintro ⟨a', _, h2, _⟩
              exact h2

theorem if_some_iff_ent [DecidableEq α] (o n : Option α) (bv : Bool) (v : α)
    (hb : pyNeEnt o n = .ok bv) :
    ((if bv then n else none) = some v) ↔
      ∃ a, o = some a ∧ n = some v ∧ a ≠ v := by
  cases o with
  | none =>
      cases n with
      | none =>
          have h0 : (Except.ok false : Except PyErr Bool) = .ok bv := hb
          have hbv : bv = false := (Except.ok.inj h0).symm
          subst hbv
          simp
      | some c => exact Except.noConfusion hb
  | some a =>
      cases n with
      | none => exact Except.noConfusion hb
      | some c =>
          have h0 : (Except.ok (decide (a ≠ c)) : Except PyErr Bool) = .ok bv := hb
          have hbv : bv = decide (a ≠ c) := (Except.ok.inj h0).symm
          subst hbv
          by_cases hac : a = c
          · rw [show decide (a ≠ c) = false from by simp [hac]]
            simp only [Bool.false_eq_true, if_false]
            constructor
            · intro hx
              exact Option.noConfusion hx
            · rintro ⟨a', ha', hcv, hne⟩
              cases ha'
              cases hcv
              exact absurd hac hne
          · rw [show decide (a ≠ c) = true from by simp [hac]]
            simp only [if_true]
            constructor
            · intro hx
              have hcv := Option.some.inj hx
              exact ⟨a, rfl, hx, hcv ▸ hac⟩
            · rintro ⟨a', _, h2, _⟩
              exact h2

theorem except_pure_bind (a : α) (f : α → Except ε β) :
    (pure a : Except ε α) >>= f = f a := rfl

/-- C5 as amended: whenever diff(old, new) returns a record (it raises
AttributeError instead when one of the five entity attributes is present
on exactly one side), the record's fields obey the code's own comparison
semantics: name/comment/modifier are included iff the values differ and
the new value is a non-empty string, with the new value stored; location
is included iff BOTH tables carry a location and the locations differ — a
transition between absent and present is never recorded; each entity
attribute is included iff both tables carry one and they differ
structurally; the stored value is always the new table's. -/
theorem diff_attribute_rule (old new : Table) (d : DiffRecord)
    (h : TableDiff.diff old new = .ok d) :
    (∀ v, d.name = some v ↔ old.name ≠ new.name ∧ new.name ≠ "" ∧ v = new.name) ∧
    (∀ v, d.comment = some v ↔ old.comment ≠ new.comment ∧ new.comment = some v ∧ v ≠ "") ∧
    (∀ v, d.modifier = some v ↔ old.modifier ≠ new.modifier ∧ new.modifier = some v ∧ v ≠ "") ∧
    (∀ v, d.location = some v ↔
      ∃ a, old.location = some a ∧ new.location = some v ∧ a.location ≠ v.location) ∧
    (∀ v, d.clustered_by = some v ↔
      ∃ a, old.clustered_by = some a ∧ new.clustered_by = some v ∧ a ≠ v) ∧
    (∀ v, d.row_format = some v ↔
      ∃ a, old.row_format = some a ∧ new.row_format = some v ∧ a ≠ v) ∧
    (∀ v, d.skewed_by = some v ↔
      ∃ a, old.skewed_by = some a ∧ new.skewed_by = some v ∧ a ≠ v) ∧
    (∀ v, d.storage = some v ↔
      ∃ a, old.storage = some a ∧ new.storage = some v ∧ a ≠ v) ∧
    (∀ v, d.table_properties = some v ↔
      ∃ a, old.table_properties = some a ∧ new.table_properties = some v ∧ a ≠ v) := by
  unfold TableDiff.diff at h
  cases h1 : pyNeEnt old.clustered_by new.clustered_by with
  | error e =>
      rw [h1] at h
      simp only [except_bind_error] at h
      exact Except.noConfusion h
  | ok b1 =>
  rw [h1] at h
  simp only [except_bind_ok] at h
  cases h2 : pyNeEnt old.row_format new.row_format with
  | error e =>
      rw [h2] at h
      simp only [except_bind_error] at h
      exact Except.noConfusion h
  | ok b2 =>
  rw [h2] at h
  simp only [except_bind_ok] at h
  cases h3 : pyNeEnt old.skewed_by new.skewed_by with
  | error e =>
      rw [h3] at h
      simp only [except_bind_error] at h
      exact Except.noConfusion h
  | ok b3 =>
  rw [h3] at h
  simp only [except_bind_ok] at h
  cases h4 : pyNeEnt old.storage new.storage with
  | error e =>
      rw [h4] at h
      simp only [except_bind_error] at h
      exact Except.noConfusion h
  | ok b4 =>
  rw [h4] at h
  simp only [except_bind_ok] at h
  cases h5 : pyNeEnt old.table_properties new.table_properties with
  | error e =>
      rw [h5] at h
      simp only [except_bind_error] at h
      exact Except.noConfusion h
  | ok b5 =>
  rw [h5] at h
  simp only [except_bind_ok] at h
  split at h
  · cases hdc : TableDiff.diff_columns old.columns new.columns with
    | error e =>
        rw [hdc] at h
        simp only [except_map_error, except_bind_error] at h
        exact Except.noConfusion h
    | ok cd =>
        rw [hdc] at h
        simp only [except_map_ok, except_bind_ok] at h
        injection h with hd
        subst hd
        exact ⟨fun v => if_some_iff_str _ _ v,
               fun v => if_some_iff_optstr _ _ v,
               fun v => if_some_iff_optstr _ _ v,
               fun v => if_some_iff_loc _ _ v,
               fun v => if_some_iff_ent _ _ _ v h1,
               fun v => if_some_iff_ent _ _ _ v h2,
               fun v => if_some_iff_ent _ _ _ v h3,
               fun v => if_some_iff_ent _ _ _ v h4,
               fun v => if_some_iff_ent _ _ _ v h5⟩
  · simp only [except_pure_bind] at h
    injection h with hd
    subst hd
    exact ⟨fun v => if_some_iff_str _ _ v,
           fun v => if_some_iff_optstr _ _ v,
           fun v => if_some_iff_optstr _ _ v,
           fun v => if_some_iff_loc _ _ v,
           fun v => if_some_iff_ent _ _ _ v h1,
           fun v => if_some_iff_ent _ _ _ v h2,
           fun v => if_some_iff_ent _ _ _ v h3,
           fun v => if_some_iff_ent _ _ _ v h4,
           fun v => if_some_iff_ent _ _ _ v h5⟩

/-- Closed witness for C5 as amended: a location change from '/x' to '/y'
is recorded with the new value, certified by applying the rule at the
concrete pair. -/
theorem diff_attribute_rule_witness :
    locchg_d.location = some (Location.mk ("\x27/y\x27")) :=
  ((diff_attribute_rule locchg_old locchg_new locchg_d (by decide)).2.2.2.1
    (Location.mk ("\x27/y\x27"))).mpr
    ⟨Location.mk ("\x27/x\x27"), rfl, rfl, by decide⟩

/-- C5 counterexample: locadd_new adds a LOCATION clause absent from
locadd_old, so the attributes differ and the new value is present, yet the
diff record is completely empty — Location.__ne__ returns False against
None, so the change is never recorded. -/
theorem location_added_not_diffed_counterexample :
    locadd_old.location = none ∧
    locadd_new.location = some (Location.mk ("\x27/x\x27")) ∧
    TableDiff.diff locadd_old locadd_new = .ok DiffRecord.empty := by
  refine ⟨by decide, by decide, by decide⟩

/-
  Lemmas for the statement-ordering claim.
-/

theorem isPrefixOf_append_same (l p q : List Char) :
    (l ++ p).isPrefixOf (l ++ q) = p.isPrefixOf q := by
  induction l with
  | nil => rfl
  | cons a as ih => simp [List.isPrefixOf, ih]

theorem shaped_split (t : Table) (mid lit : String)
    (hlit : ("` " : String) ++ mid = lit) (x : String) :
    "ALTER TABLE `" ++ t.name ++ lit ++ x = alterPre t ++ (mid ++ x) := by
  unfold alterPre
  rw [← hlit]
  simp [String.append_assoc]

theorem setShaped_not_column (t : Table) (s : String) (h : setShaped t s) :
    isColumnStatement t s = false := by
  obtain ⟨x, rfl⟩ := h
  rw [shaped_split t ("SET ") ("` SET ") rfl x]
  unfold isColumnStatement
  rw [Bool.or_eq_false_iff]
  constructor
  · rw [String.data_append, String.data_append, isPrefixOf_append_same, String.data_append]
    show (('A' :: "DD COLUMNS (".data).isPrefixOf ('S' :: ("ET ".data ++ x.data))) = false
    simp [List.isPrefixOf]
  · rw [String.data_append, String.data_append, isPrefixOf_append_same, String.data_append]
    show (('C' :: "HANGE COLUMN `".data).isPrefixOf ('S' :: ("ET ".data ++ x.data))) = false
    simp [List.isPrefixOf]

theorem colShaped_not_location (t : Table) (s : String) (h : colShaped t s) :
    isSetLocationStatement t s = false := by
  unfold isSetLocationStatement
  rcases h with ⟨x, rfl⟩ | ⟨x, rfl⟩
  · rw [shaped_split t ("ADD COLUMNS (") ("` ADD COLUMNS (") rfl x]
    rw [String.data_append, String.data_append, isPrefixOf_append_same, String.data_append]
    show (('S' :: "ET LOCATION ".data).isPrefixOf ('A' :: ("DD COLUMNS (".data ++ x.data))) = false
    simp [List.isPrefixOf]
  · rw [shaped_split t ("CHANGE COLUMN `") ("` CHANGE COLUMN `") rfl x]
    rw [String.data_append, String.data_append, isPrefixOf_append_same, String.data_append]
    show (('S' :: "ET LOCATION ".data).isPrefixOf ('C' :: ("HANGE COLUMN `".data ++ x.data))) = false
    simp [List.isPrefixOf]

theorem add_columns_colShaped (t : Table) (cols : List Column) (s : String)
    (h : HQLStatement.add_columns t cols = .ok s) : colShaped t s := by
  unfold HQLStatement.add_columns at h
  cases hm : cols.mapM Column.hql with
  | error e =>
      rw [hm] at h
      simp only [except_bind_error] at h
      exact Except.noConfusion h
  | ok rendered =>
      rw [hm] at h
      simp only [except_bind_ok] at h
      injection h with hs
      subst hs
      left
      exact ⟨joinComma rendered ++ ");", by simp [String.append_assoc]⟩

theorem change_column_colShaped (t : Table) (c : Column) (s : String)
    (h : HQLStatement.change_column t c = .ok s) : colShaped t s := by
  unfold HQLStatement.change_column at h
  cases hm : c.hql with
  | error e =>
      rw [hm] at h
      simp only [except_bind_error] at h
      exact Except.noConfusion h
  | ok hc =>
      rw [hm] at h
      simp only [except_bind_ok] at h
      injection h with hs
      subst hs
      right
      exact ⟨c.name ++ "` " ++ hc ++ ";", by simp [String.append_assoc]⟩

theorem mapM_change_colShaped (t : Table) (cols : List Column) (l : List String)
    (h : cols.mapM (HQLStatement.change_column t) = .ok l) :
    ∀ s ∈ l, colShaped t s := by
  induction cols generalizing l with
  | nil =>
      rw [List.mapM_nil] at h
      injection h with hl
      subst hl
      intro s hs
      exact absurd hs (List.not_mem_nil s)
  | cons c cs ih =>
      rw [List.mapM_cons] at h
      cases hm : HQLStatement.change_column t c with
      | error e =>
          rw [hm] at h
          simp only [except_bind_error] at h
          exact Except.noConfusion h
      | ok s0 =>
          rw [hm] at h
          simp only [except_bind_ok] at h
          cases hrest : cs.mapM (HQLStatement.change_column t) with
          | error e =>
              rw [hrest] at h
              simp only [except_bind_error] at h
              exact Except.noConfusion h
          | ok rest =>
              rw [hrest] at h
              simp only [except_bind_ok] at h
              injection h with hl
              subst hl
              intro s hs
              rcases List.mem_cons.mp hs with hs0 | hsr
              · subst hs0
                exact change_column_colShaped t c s hm
              · exact ih rest hrest s hsr

theorem addedStmts_colShaped (t : Table) (oc : Option (List Column))
    (a : List String) (h : HQLStatement.addedStmts t oc = .ok a) :
    ∀ s ∈ a, colShaped t s := by
  cases oc with
  | none =>
      injection h with ha
      subst ha
      intro s hs
      exact absurd hs (List.not_mem_nil s)
  | some cols =>
      simp only [HQLStatement.addedStmts] at h
      cases hac : HQLStatement.add_columns t cols with
      | error e =>
          rw [hac] at h
          simp only [except_bind_error] at h
          exact Except.noConfusion h
      | ok sa =>
          rw [hac] at h
          simp only [except_bind_ok] at h
          injection h with ha
          subst ha
          intro s hs
          rcases List.mem_singleton.mp hs with rfl
          exact add_columns_colShaped t cols s hac

theorem changedStmts_colShaped (t : Table) (oc : Option (List Column))
    (c : List String) (h : HQLStatement.changedStmts t oc = .ok c) :
    ∀ s ∈ c, colShaped t s := by
  cases oc with
  | none => exact Except.noConfusion h
  | some cols => exact mapM_change_colShaped t cols c h

theorem columnStatements_colShaped (t : Table) (oc : Option ColumnsDiff)
    (cs : List String) (h : HQLStatement.columnStatements t oc = .ok cs) :
    ∀ s ∈ cs, colShaped t s := by
  cases oc with
  | none =>
      injection h with hcs
      subst hcs
      intro s hs
      exact absurd hs (List.not_mem_nil s)
  | some cd =>
      simp only [HQLStatement.columnStatements] at h
      cases hadd : HQLStatement.addedStmts t cd.added with
      | error e =>
          rw [hadd] at h
          simp only [except_bind_error] at h
          exact Except.noConfusion h
      | ok a =>
          rw [hadd] at h
          simp only [except_bind_ok] at h
          cases hchg : HQLStatement.changedStmts t cd.changed with
          | error e =>
              rw [hchg] at h
              simp only [except_bind_error] at h
              exact Except.noConfusion h
          | ok c =>
              rw [hchg] at h
              simp only [except_bind_ok] at h
              injection h with hcs
              subst hcs
              intro s hs
              rcases List.mem_append.mp hs with hs1 | hs2
              · exact addedStmts_colShaped t cd.added a hadd s hs1
              · exact changedStmts_colShaped t cd.changed c hchg s hs2

theorem mem_optStmt (f : α → String) (o : Option α) (s : String)
    (h : s ∈ HQLStatement.optStmt f o) : ∃ a, o = some a ∧ s = f a := by
  cases o with
  | none => exact absurd h (List.not_mem_nil s)
  | some a => exact ⟨a, rfl, List.mem_singleton.mp h⟩

theorem optStmtE_ok_mem (f : α → Except PyErr String) (o : Option α)
    (l : List String) (h : HQLStatement.optStmtE f o = .ok l)
    (s : String) (hs : s ∈ l) :
    ∃ a r, o = some a ∧ f a = .ok r ∧ s = r := by
  cases o with
  | none =>
      injection h with hl
      subst hl
      exact absurd hs (List.not_mem_nil s)
  | some a =>
      simp only [HQLStatement.optStmtE] at h
      cases hf : f a with
      | error e =>
          rw [hf] at h
          simp only [except_bind_error] at h
          exact Except.noConfusion h
      | ok r =>
          rw [hf] at h
          simp only [except_bind_ok] at h
          injection h with hl
          subst hl
          exact ⟨a, r, rfl, hf, List.mem_singleton.mp hs⟩

theorem settingStatements_setShaped (t : Table) (d : DiffRecord)
    (rest : List String) (h : HQLStatement.settingStatements t d = .ok rest) :
    ∀ s ∈ rest, setShaped t s := by
  unfold HQLStatement.settingStatements at h
  cases h5 : HQLStatement.optStmtE (HQLStatement.set_row_format t) d.row_format with
  | error e =>
      rw [h5] at h
      simp only [except_bind_error] at h
      exact Except.noConfusion h
  | ok s5 =>
  rw [h5] at h
  simp only [except_bind_ok] at h
  cases h6 : HQLStatement.optStmtE (HQLStatement.set_skewed_by t) d.skewed_by with
  | error e =>
      rw [h6] at h
      simp only [except_bind_error] at h
      exact Except.noConfusion h
  | ok s6 =>
  rw [h6] at h
  simp only [except_bind_ok] at h
  injection h with hrest
  subst hrest
  intro s hs
  simp only [List.mem_append] at hs
  rcases hs with ((((((hs | hs) | hs) | hs) | hs) | hs) | hs)
  · obtain ⟨a, _, rfl⟩ := mem_optStmt _ _ _ hs
    exact ⟨a.hql ++ ";", by simp [HQLStatement.set_clustered_by, String.append_assoc]⟩
  · obtain ⟨a, _, rfl⟩ := mem_optStmt _ _ _ hs
    exact ⟨a.hql ++ ";", by simp [HQLStatement.set_location, String.append_assoc]⟩
  · obtain ⟨a, _, rfl⟩ := mem_optStmt _ _ _ hs
    exact ⟨(TableProperties.mk [("\x27EXTERNAL\x27",
        if some a = some "EXTERNAL" then "\x27TRUE\x27" else "\x27FALSE\x27")]).hql ++ ";",
      by simp [HQLStatement.set_modifier, String.append_assoc]⟩
  · obtain ⟨a, r, _, hfa, rfl⟩ := optStmtE_ok_mem _ _ _ h5 s hs
    unfold HQLStatement.set_row_format at hfa
    cases hh : a.hql with
    | none =>
        rw [hh] at hfa
        exact Except.noConfusion hfa
    | some hq =>
        rw [hh] at hfa
        injection hfa with hr
        subst hr
        exact ⟨hq ++ ";", by simp [String.append_assoc]⟩
  · obtain ⟨a, r, _, hfa, rfl⟩ := optStmtE_ok_mem _ _ _ h6 s hs
    unfold HQLStatement.set_skewed_by at hfa
    cases hh : a.hql with
    | error e =>
        rw [hh] at hfa
        simp only [except_bind_error] at hfa
        exact Except.noConfusion hfa
    | ok hq =>
        rw [hh] at hfa
        simp only [except_bind_ok] at hfa
        injection hfa with hr
        subst hr
        exact ⟨hq ++ ";", by simp [String.append_assoc]⟩
  · obtain ⟨a, _, rfl⟩ := mem_optStmt _ _ _ hs
    exact ⟨a.hql ++ ";", by simp [HQLStatement.set_storage, String.append_assoc]⟩
  · obtain ⟨a, _, rfl⟩ := mem_optStmt _ _ _ hs
    exact ⟨a.hql ++ ";", by simp [HQLStatement.set_table_properties, String.append_assoc]⟩

theorem from_diff_decomp (t : Table) (d : DiffRecord) (l : List String)
    (h : HQLStatement.from_diff t d = .ok l) :
    ∃ cs rest, l = cs ++ rest ∧ (∀ s ∈ cs, colShaped t s) ∧ (∀ s ∈ rest, setShaped t s) := by
  unfold HQLStatement.from_diff at h
  cases hp : d.partition with
  | some p =>
      rw [hp] at h
      exact Except.noConfusion h
  | none =>
      rw [hp] at h
      cases hcs : HQLStatement.columnStatements t d.columns with
      | error e =>
          rw [hcs] at h
          simp only [except_bind_error] at h
          exact Except.noConfusion h
      | ok cs =>
          rw [hcs] at h
          simp only [except_bind_ok] at h
          cases hss : HQLStatement.settingStatements t d with
          | error e =>
              rw [hss] at h
              simp only [except_bind_error] at h
              exact Except.noConfusion h
          | ok rest =>
              rw [hss] at h
              simp only [except_bind_ok] at h
              injection h with hl
              subst hl
              exact ⟨cs, rest, rfl, columnStatements_colShaped t d.columns cs hcs,
                     settingStatements_setShaped t d rest hss⟩

/-- C6: in every statement list the generator returns, every ADD COLUMNS
or CHANGE COLUMN statement appears at an earlier index than any SET
LOCATION statement: the column block is emitted before the SET LOCATION
block, later blocks all start with SET, and the column block never starts
with SET. -/
theorem column_statements_precede_location (t : Table) (d : DiffRecord)
    (l : List String) (h : HQLStatement.from_diff t d = .ok l)
    (i j : Nat) (si sj : String)
    (hi : l[i]? = some si) (hj : l[j]? = some sj)
    (hci : isColumnStatement t si = true)
    (hlj : isSetLocationStatement t sj = true) : i < j := by
  obtain ⟨cs, rest, hl, hcol, hset⟩ := from_diff_decomp t d l h
  subst hl
  have hilt : i < cs.length := by
    by_contra hge
    rw [not_lt] at hge
    rw [List.getElem?_append_right hge] at hi
    have hmem := List.getElem?_mem hi
    have := setShaped_not_column t si (hset si hmem)
    rw [this] at hci
    exact Bool.noConfusion hci
  have hjge : cs.length ≤ j := by
    by_contra hlt
    rw [not_le] at hlt
    rw [List.getElem?_append_left hlt] at hj
    have hmem := List.getElem?_mem hj
    have := colShaped_not_location t sj (hcol sj hmem)
    rw [this] at hlj
    exact Bool.noConfusion hlj
  exact lt_of_lt_of_le hilt hjge

/-- Closed witness for C6: a diff with an added column, a changed column
and a changed location generates the column statements at indices 0 and 1
and the SET LOCATION statement at index 2. -/
theorem column_statements_precede_location_witness :
    HQLStatement.from_diff scenario1_new order_d =
      .ok ["ALTER TABLE `t` ADD COLUMNS (`b` STRING );",
           "ALTER TABLE `t` CHANGE COLUMN `c` `c` INT ;",
           "ALTER TABLE `t` SET LOCATION \x27/y\x27;"] ∧
    (0 : Nat) < 2 :=
  ⟨by decide,
   column_statements_precede_location scenario1_new order_d
     ["ALTER TABLE `t` ADD COLUMNS (`b` STRING );",
      "ALTER TABLE `t` CHANGE COLUMN `c` `c` INT ;",
      "ALTER TABLE `t` SET LOCATION \x27/y\x27;"]
     (by decide) 0 2
     ("ALTER TABLE `t` ADD COLUMNS (`b` STRING );")
     ("ALTER TABLE `t` SET LOCATION \x27/y\x27;")
     (by decide) (by decide) (by decide) (by decide)⟩

end Beeswax
